import Mathlib

/-!
Shallow embedding of tritonbench profiler-report analyzers
(src/tritonbench/components/ncu/ncu_analyzer.py and nsys_analyzer.py).
Profiler counter values are modelled as rationals; the fatal Python
assertions are modelled as the error case of Except.
-/

/-- The heterogeneous values stored in an analyzer result mapping:
scalars, fp32/fp64 pairs, per-kernel lists, string lists and counts. -/
inductive MetricValue where
  | num (x : ℚ)
  | pair (x y : ℚ)
  | numList (xs : List ℚ)
  | pairList (xs : List (ℚ × ℚ))
  | strList (xs : List String)
  | count (n : ℕ)
deriving DecidableEq

/-- One kernel action record of an NCU report: exposes named counter
values, read via metric_by_name (the Python .value() call is folded in). -/
structure Kernel where
  metric_by_name : String → ℚ

/-- A profiling range of an NCU report: num_actions is the length of
actions, action_by_idx is list indexing. -/
structure NcuRange where
  actions : List Kernel

/-- An NCU report: num_ranges is the length of ranges, range_by_idx 0 is
the head. -/
structure NcuReport where
  ranges : List NcuRange

/-- short_ncu_metric_name from ncu_analyzer.py: maps short metric names to
full NCU counter names. Modelled as a function on the literal keys; the
source only ever looks up keys present in the dict. -/
def short_ncu_metric_name : String → String
  | "inst_executed_ffma_peak" => "sm__sass_thread_inst_executed_op_ffma_pred_on.sum.peak_sustained"
  | "inst_executed_dfma_peak" => "sm__sass_thread_inst_executed_op_dfma_pred_on.sum.peak_sustained"
  | "inst_executed_fadd" => "smsp__sass_thread_inst_executed_op_fadd_pred_on.sum.per_cycle_elapsed"
  | "inst_executed_fmul" => "smsp__sass_thread_inst_executed_op_fmul_pred_on.sum.per_cycle_elapsed"
  | "inst_executed_ffma" => "smsp__sass_thread_inst_executed_op_ffma_pred_on.sum.per_cycle_elapsed"
  | "inst_executed_dadd" => "smsp__sass_thread_inst_executed_op_dadd_pred_on.sum.per_cycle_elapsed"
  | "inst_executed_dmul" => "smsp__sass_thread_inst_executed_op_dmul_pred_on.sum.per_cycle_elapsed"
  | "inst_executed_dfma" => "smsp__sass_thread_inst_executed_op_dfma_pred_on.sum.per_cycle_elapsed"
  | "dram_bytes_write" => "dram__bytes_write.sum"
  | "dram_bytes_read" => "dram__bytes_read.sum"
  | "dram_bytes_per_second" => "dram__bytes.sum.per_second"
  | "dram_bytes" => "dram__bytes.sum"
  | "sm_freq" => "smsp__cycles_elapsed.avg.per_second"
  | "dram_bandwidth" => "dram__bytes.sum.per_second"
  | "duration" => "gpu__time_duration.sum"
  | _ => ""

/-- bench_metric_to_short_ncu_metric from ncu_analyzer.py: maps composite
benchmark metric names to the short NCU metric names they require. -/
def bench_metric_to_short_ncu_metric : List (String × List String) :=
  [("memory_traffic", ["dram_bytes_write", "dram_bytes_read"]),
   ("arithmetic_intensity",
     ["inst_executed_ffma_peak", "inst_executed_dfma_peak",
      "inst_executed_fadd", "inst_executed_fmul", "inst_executed_ffma",
      "inst_executed_dadd", "inst_executed_dmul", "inst_executed_dfma",
      "dram_bytes_write", "dram_bytes_read", "dram_bytes",
      "sm_freq", "dram_bandwidth", "duration"]),
   ("ncu_tflops",
     ["inst_executed_fadd", "inst_executed_fmul", "inst_executed_ffma",
      "inst_executed_dadd", "inst_executed_dmul", "inst_executed_dfma",
      "duration", "sm_freq"])]

/-- get_mem_traffic from ncu_analyzer.py: per-kernel (DRAM read bytes,
DRAM write bytes). -/
def get_mem_traffic (kernel : Kernel) : ℚ × ℚ :=
  (kernel.metric_by_name (short_ncu_metric_name "dram_bytes_read"),
   kernel.metric_by_name (short_ncu_metric_name "dram_bytes_write"))

/-- get_duration from ncu_analyzer.py: per-kernel GPU time duration. -/
def get_duration (kernel : Kernel) : ℚ :=
  kernel.metric_by_name (short_ncu_metric_name "duration")

/-- get_flops from ncu_analyzer.py: achieved (fp32, fp64) FLOPS of a
kernel, (add + mul + 2 * fma achieved-per-cycle counts) times the SM
frequency. -/
def get_flops (kernel : Kernel) : ℚ × ℚ :=
  let fp32_add_achieved := kernel.metric_by_name (short_ncu_metric_name "inst_executed_fadd")
  let fp32_mul_achieved := kernel.metric_by_name (short_ncu_metric_name "inst_executed_fmul")
  let fp32_fma_achieved := kernel.metric_by_name (short_ncu_metric_name "inst_executed_ffma")
  let fp32_achieved := fp32_add_achieved + fp32_mul_achieved + 2 * fp32_fma_achieved
  let fp64_add_achieved := kernel.metric_by_name (short_ncu_metric_name "inst_executed_dadd")
  let fp64_mul_achieved := kernel.metric_by_name (short_ncu_metric_name "inst_executed_dmul")
  let fp64_fma_achieved := kernel.metric_by_name (short_ncu_metric_name "inst_executed_dfma")
  let fp64_achieved := fp64_add_achieved + fp64_mul_achieved + 2 * fp64_fma_achieved
  let sm_freq := kernel.metric_by_name (short_ncu_metric_name "sm_freq")
  (fp32_achieved * sm_freq, fp64_achieved * sm_freq)

/-- get_arithmetic_intensity from ncu_analyzer.py: per-kernel (fp32, fp64)
FLOPS divided by the DRAM bandwidth of the kernel. -/
def get_arithmetic_intensity (kernel : Kernel) : ℚ × ℚ :=
  let dram_bandwidth := kernel.metric_by_name (short_ncu_metric_name "dram_bandwidth")
  let fp := get_flops kernel
  (fp.1 / dram_bandwidth, fp.2 / dram_bandwidth)

/-- The inline dram_bytes read in the arithmetic_intensity branch of
read_ncu_report. -/
def get_dram_bytes (kernel : Kernel) : ℚ :=
  kernel.metric_by_name (short_ncu_metric_name "dram_bytes")

/-- The per-kernel durations list accumulated by the read_ncu_report loop:
collected only when arithmetic_intensity or ncu_tflops is required
(a missing key of the results defaultdict reads as an empty list). -/
def ncu_durations (actions : List Kernel) (required_metrics : List String) : List ℚ :=
  if "arithmetic_intensity" ∈ required_metrics ∨ "ncu_tflops" ∈ required_metrics then
    actions.map get_duration
  else []

/-- The result mapping assembled by read_ncu_report, in insertion order:
the per-kernel raw lists appended inside the loop, then the post-loop
aggregate entries for each required composite metric. -/
def ncu_entries (actions : List Kernel) (required_metrics : List String) :
    List (String × MetricValue) :=
  let durations := ncu_durations actions required_metrics
  let total_duration := durations.sum
  let memory_traffic_raw := actions.map get_mem_traffic
  let arithmetic_intensity_raw := actions.map get_arithmetic_intensity
  let ncu_tflops_raw := actions.map get_flops
  let total_dram_bytes := (actions.map get_dram_bytes).sum
  let weighted_fp32_ai_sum :=
    (actions.map (fun k => (get_arithmetic_intensity k).1 * get_dram_bytes k)).sum
  let weighted_fp64_ai_sum :=
    (actions.map (fun k => (get_arithmetic_intensity k).2 * get_dram_bytes k)).sum
  let memory_traffic_read_sum := (memory_traffic_raw.map Prod.fst).sum
  let memory_traffic_write_sum := (memory_traffic_raw.map Prod.snd).sum
  let weighted_fp32_flops_sum :=
    ((ncu_tflops_raw.zip durations).map (fun p => p.1.1 * p.2)).sum
  let weighted_fp64_flops_sum :=
    ((ncu_tflops_raw.zip durations).map (fun p => p.1.2 * p.2)).sum
  (if "arithmetic_intensity" ∈ required_metrics ∨ "ncu_tflops" ∈ required_metrics then
    [("durations", MetricValue.numList durations)]
  else []) ++
  (if "memory_traffic" ∈ required_metrics then
    [("memory_traffic_raw", MetricValue.pairList memory_traffic_raw)]
  else []) ++
  (if "arithmetic_intensity" ∈ required_metrics then
    [("arithmetic_intensity_raw", MetricValue.pairList arithmetic_intensity_raw)]
  else []) ++
  (if "ncu_tflops" ∈ required_metrics then
    [("ncu_tflops_raw", MetricValue.pairList ncu_tflops_raw)]
  else []) ++
  (if "memory_traffic" ∈ required_metrics then
    [("memory_traffic_read_sum", MetricValue.num memory_traffic_read_sum),
     ("memory_traffic_write_sum", MetricValue.num memory_traffic_write_sum),
     ("memory_traffic", MetricValue.pair memory_traffic_read_sum memory_traffic_write_sum)]
  else []) ++
  (if "arithmetic_intensity" ∈ required_metrics then
    [("weighted_fp32_arithmetic_intensity",
       MetricValue.num (weighted_fp32_ai_sum / total_dram_bytes)),
     ("weighted_fp64_arithmetic_intensity",
       MetricValue.num (weighted_fp64_ai_sum / total_dram_bytes)),
     ("arithmetic_intensity",
       MetricValue.pair (weighted_fp32_ai_sum / total_dram_bytes)
         (weighted_fp64_ai_sum / total_dram_bytes))]
  else []) ++
  (if "ncu_tflops" ∈ required_metrics then
    [("ncu_tflops",
       MetricValue.pair (weighted_fp32_flops_sum / (10 : ℚ) ^ 12 / total_duration)
         (weighted_fp64_flops_sum / (10 : ℚ) ^ 12 / total_duration))]
  else [])

/-- read_ncu_report from ncu_analyzer.py, file loading abstracted to the
report value. The range and action emptiness assertions, and the kernel
durations assertion of the ncu_tflops branch, are the error cases. -/
def read_ncu_report (report : NcuReport) (required_metrics : List String) :
    Except String (List (String × MetricValue)) :=
  match report.ranges with
  | [] => Except.error "No profile data found in the NCU report"
  | default_range :: _ =>
    if default_range.actions.isEmpty then
      Except.error "No profile data found in the default range of the NCU report"
    else if "ncu_tflops" ∈ required_metrics ∧
        ncu_durations default_range.actions required_metrics = [] then
      Except.error "No kernel durations found in the NCU report."
    else
      Except.ok (ncu_entries default_range.actions required_metrics)

/-- Looks a key up in the result of read_ncu_report; none when the call
raised. -/
def ncuLookup (report : NcuReport) (required_metrics : List String) (key : String) :
    Option MetricValue :=
  match read_ncu_report report required_metrics with
  | Except.ok res => res.lookup key
  | Except.error _ => none

/-- One data row of an exported nsys CSV, restricted to the columns the
analyzer reads (DictReader keys the row by header name; the float
conversion of the Total Time column is folded in). -/
structure NsysRow where
  total_time_ns : ℚ
  kernel_name : String
deriving DecidableEq

/-- The CSV files available next to the nsys report after the export
step: per report type, the parsed data rows, or none when the expected
file is missing. -/
structure NsysEnv where
  csv : String → Option (List NsysRow)

/-- nsys_metrics_to_reports from nsys_analyzer.py: maps each nsys
benchmark metric to the report types it needs. -/
def nsys_metrics_to_reports : List (String × List String) :=
  [("nsys_gpu_kernel_sum", ["nvtx_kern_sum", "nvtx_sum"]),
   ("nsys_launch_overhead", ["nvtx_kern_sum", "nvtx_sum"]),
   ("nsys_kernel_names", ["nvtx_kern_sum"]),
   ("nsys_kernel_durations", ["nvtx_kern_sum"]),
   ("nsys_nvtx_range_duration", ["nvtx_sum"]),
   ("nsys_num_of_kernels", ["nvtx_kern_sum"])]

/-- The reports_required list of read_nsys_report: the report types of
every recognized requested metric, deduplicated (the source goes through
a set, so only membership is meaningful). -/
def reportsRequired (required_metrics : List String) : List String :=
  (required_metrics.flatMap
    (fun m => ((nsys_metrics_to_reports.lookup m).getD []))).dedup

/-- The CSV reading loop of read_nsys_report: reads each required report
file, failing on the first missing one. -/
def collect_csvs (env : NsysEnv) : List String → Except String (List (String × List NsysRow))
  | [] => Except.ok []
  | r :: rest =>
    match env.csv r with
    | none => Except.error ("Expected CSV report not found: " ++ r)
    | some rows =>
      match collect_csvs env rest with
      | Except.error e => Except.error e
      | Except.ok tail => Except.ok ((r, rows) :: tail)

/-- Python str applied to a float duration, used because tritonbench
takes the median of numerical values. -/
def float_str (x : ℚ) : String := toString x

/-- The metrics_map dict of read_nsys_report, given the values derived
from the parsed CSVs. -/
def nsys_metrics_map (kernel_duration : List ℚ) (kernel_names : List String)
    (nvtx_range_duration : ℚ) : List (String × MetricValue) :=
  [("nsys_kernel_durations", MetricValue.strList (kernel_duration.map float_str)),
   ("nsys_kernel_names", MetricValue.strList kernel_names),
   ("nsys_gpu_kernel_sum", MetricValue.num kernel_duration.sum),
   ("nsys_nvtx_range_duration", MetricValue.num nvtx_range_duration),
   ("nsys_launch_overhead", MetricValue.num (nvtx_range_duration - kernel_duration.sum)),
   ("nsys_num_of_kernels", MetricValue.count kernel_names.length)]

/-- The final filter of read_nsys_report: only the requested metrics that
appear in metrics_map are returned (a dict comprehension, so keys are
deduplicated). -/
def nsys_filter_results (required_metrics : List String)
    (metrics_map : List (String × MetricValue)) : List (String × MetricValue) :=
  required_metrics.dedup.filterMap
    (fun m => (metrics_map.lookup m).map (fun v => (m, v)))

/-- The aggregation phase of read_nsys_report over the parsed CSV
contents: per-kernel names and millisecond durations from nvtx_kern_sum,
the single-row nvtx range duration from nvtx_sum (asserting exactly one
data row), then the filtered metrics map. -/
def nsysComputeFromCsvs (csv_contents : List (String × List NsysRow))
    (required_metrics : List String) : Except String (List (String × MetricValue)) :=
  let kernel_duration :=
    match csv_contents.lookup "nvtx_kern_sum" with
    | some rows => rows.map (fun row => row.total_time_ns / 1000000)
    | none => []
  let kernel_names :=
    match csv_contents.lookup "nvtx_kern_sum" with
    | some rows => rows.map (fun row => row.kernel_name)
    | none => []
  match csv_contents.lookup "nvtx_sum" with
  | some rows =>
    match rows with
    | [row] =>
      Except.ok (nsys_filter_results required_metrics
        (nsys_metrics_map kernel_duration kernel_names (row.total_time_ns / 1000000)))
    | _ => Except.error "assert failed: nvtx_sum is supposed to have only one row"
  | none =>
    Except.ok (nsys_filter_results required_metrics
      (nsys_metrics_map kernel_duration kernel_names 0))

/-- read_nsys_report from nsys_analyzer.py, with the nsys stats export
abstracted to the CSV environment: resolves the required report types
(asserting the list nonempty), reads each CSV, aggregates and filters. -/
def read_nsys_report (env : NsysEnv) (required_metrics : List String) :
    Except String (List (String × MetricValue)) :=
  let reports_required := reportsRequired required_metrics
  if reports_required.isEmpty then
    Except.error "No nsys reports required"
  else
    match collect_csvs env reports_required with
    | Except.error e => Except.error e
    | Except.ok csv_contents => nsysComputeFromCsvs csv_contents required_metrics

/-- Looks a key up in the result of read_nsys_report; none when the call
raised. -/
def nsysLookup (env : NsysEnv) (required_metrics : List String) (key : String) :
    Option MetricValue :=
  match read_nsys_report env required_metrics with
  | Except.ok res => res.lookup key
  | Except.error _ => none

/-- A synthetic kernel record: DRAM bytes 100, arithmetic intensity 2
(fadd count 2, SM frequency 1, DRAM bandwidth 1), duration 1, DRAM
read 10 and write 20 bytes. -/
def kernelA : Kernel :=
  ⟨fun n =>
    if n = "smsp__sass_thread_inst_executed_op_fadd_pred_on.sum.per_cycle_elapsed" then 2
    else if n = "smsp__cycles_elapsed.avg.per_second" then 1
    else if n = "dram__bytes.sum.per_second" then 1
    else if n = "dram__bytes.sum" then 100
    else if n = "gpu__time_duration.sum" then 1
    else if n = "dram__bytes_read.sum" then 10
    else if n = "dram__bytes_write.sum" then 20
    else 0⟩

/-- A synthetic kernel record: DRAM bytes 300, arithmetic intensity 6,
duration 3, DRAM read 30 and write 40 bytes. -/
def kernelB : Kernel :=
  ⟨fun n =>
    if n = "smsp__sass_thread_inst_executed_op_fadd_pred_on.sum.per_cycle_elapsed" then 6
    else if n = "smsp__cycles_elapsed.avg.per_second" then 1
    else if n = "dram__bytes.sum.per_second" then 1
    else if n = "dram__bytes.sum" then 300
    else if n = "gpu__time_duration.sum" then 3
    else if n = "dram__bytes_read.sum" then 30
    else if n = "dram__bytes_write.sum" then 40
    else 0⟩

/-- A synthetic two-kernel report, kernelA before kernelB. -/
def exampleReportAB : NcuReport := ⟨[⟨[kernelA, kernelB]⟩]⟩

/-- The same two-kernel report with the kernels in the opposite order. -/
def exampleReportBA : NcuReport := ⟨[⟨[kernelB, kernelA]⟩]⟩

/-- A report with no profiling range. -/
def emptyNcuReport : NcuReport := ⟨[]⟩

/-- A CSV environment with no exported files. -/
def emptyNsysEnv : NsysEnv := ⟨fun _ => none⟩

/-- Exported CSVs: two kernels of 20 ms and 30 ms, one nvtx range row of
100 ms. -/
def envGood : NsysEnv :=
  ⟨fun r =>
    if r = "nvtx_kern_sum" then some [⟨20000000, "kernel1"⟩, ⟨30000000, "kernel2"⟩]
    else if r = "nvtx_sum" then some [⟨100000000, ":tritonbench_range"⟩]
    else none⟩

/-- Exported CSVs whose nvtx range (10 ms) is shorter than the summed
kernel time (50 ms). -/
def envNeg : NsysEnv :=
  ⟨fun r =>
    if r = "nvtx_kern_sum" then some [⟨20000000, "kernel1"⟩, ⟨30000000, "kernel2"⟩]
    else if r = "nvtx_sum" then some [⟨10000000, ":tritonbench_range"⟩]
    else none⟩

/-- Exported CSVs whose nvtx_sum report has two data rows. -/
def envTwoRows : NsysEnv :=
  ⟨fun r =>
    if r = "nvtx_kern_sum" then some [⟨20000000, "kernel1"⟩]
    else if r = "nvtx_sum" then some [⟨100000000, "a"⟩, ⟨100000000, "b"⟩]
    else none⟩

/-! ### Association list and report plumbing lemmas -/

theorem lookup_append {α β : Type} [BEq α] (l₁ l₂ : List (α × β)) (k : α) :
    (l₁ ++ l₂).lookup k = ((l₁.lookup k).or (l₂.lookup k)) := by
  induction l₁ with
  | nil => simp [List.lookup]
  | cons p t ih =>
    obtain ⟨a, b⟩ := p
    cases hb : k == a <;> simp [List.lookup_cons, hb, ih]

theorem mem_keys_of_lookup {α β : Type} [BEq α] [LawfulBEq α] {l : List (α × β)} {k : α}
    {v : β} (h : l.lookup k = some v) : k ∈ l.map Prod.fst := by
  induction l with
  | nil => simp [List.lookup] at h
  | cons p t ih =>
    obtain ⟨a, b⟩ := p
    cases hb : k == a
    · rw [List.lookup_cons, hb] at h
      simpa using Or.inr (ih h)
    · simpa using Or.inl (eq_of_beq hb)

theorem mem_pair_of_lookup {α β : Type} [BEq α] [LawfulBEq α] {l : List (α × β)} {k : α}
    {v : β} (h : l.lookup k = some v) : (k, v) ∈ l := by
  induction l with
  | nil => simp [List.lookup] at h
  | cons p t ih =>
    obtain ⟨a, b⟩ := p
    cases hb : k == a
    · rw [List.lookup_cons, hb] at h
      exact List.mem_cons_of_mem _ (ih h)
    · rw [List.lookup_cons, hb] at h
      obtain rfl := eq_of_beq hb
      obtain rfl : b = v := by simpa using h
      exact List.mem_cons_self _ _

theorem lookup_filterMap (mm : List (String × MetricValue)) (l : List String) (k : String) :
    (l.filterMap (fun m => (mm.lookup m).map (fun v => (m, v)))).lookup k =
      if k ∈ l then mm.lookup k else none := by
  induction l with
  | nil => simp [List.lookup]
  | cons m t ih =>
    cases hml : mm.lookup m with
    | none =>
      rw [List.filterMap_cons]
      simp only [hml, Option.map_none']
      rw [ih]
      by_cases hk : k = m
      · subst hk; simp [hml]
      · simp [hk]
    | some v =>
      rw [List.filterMap_cons]
      simp only [hml, Option.map_some']
      by_cases hk : k = m
      · subst hk; simp [List.lookup_cons, hml]
      · have hb : (k == m) = false := by simp [hk]
        rw [List.lookup_cons, hb, ih]
        simp [hk]

theorem collect_csvs_lookup (env : NsysEnv) :
    ∀ (reports : List String) (L : List (String × List NsysRow)),
      collect_csvs env reports = Except.ok L → ∀ r : String,
        L.lookup r = if r ∈ reports then env.csv r else none := by
  intro reports
  induction reports with
  | nil =>
    intro L hL r
    obtain rfl : ([] : List (String × List NsysRow)) = L := by
      simpa [collect_csvs] using hL
    simp [List.lookup]
  | cons r₀ rest ih =>
    intro L hL r
    unfold collect_csvs at hL
    cases hcsv : env.csv r₀ with
    | none => rw [hcsv] at hL; exact absurd hL (by simp)
    | some rows =>
      rw [hcsv] at hL
      cases hrest : collect_csvs env rest with
      | error e => rw [hrest] at hL; exact absurd hL (by simp)
      | ok tail =>
        rw [hrest] at hL
        obtain rfl : (r₀, rows) :: tail = L := by simpa using hL
        by_cases hk : r = r₀
        · subst hk; simp [List.lookup_cons, hcsv]
        · have hb : (r == r₀) = false := by simp [hk]
          rw [List.lookup_cons, hb, ih tail hrest r]
          simp [hk]

theorem collect_csvs_ok (env : NsysEnv) (reports : List String)
    (h : ∀ r ∈ reports, (env.csv r).isSome) :
    ∃ L, collect_csvs env reports = Except.ok L := by
  induction reports with
  | nil => exact ⟨[], rfl⟩
  | cons r₀ rest ih =>
    obtain ⟨rows, hrows⟩ := Option.isSome_iff_exists.mp (h r₀ (by simp))
    obtain ⟨tail, htail⟩ := ih (fun r hr => h r (List.mem_cons_of_mem _ hr))
    exact ⟨(r₀, rows) :: tail, by simp [collect_csvs, hrows, htail]⟩

theorem mem_reportsRequired {metrics : List String} {m rep : String}
    (hm : m ∈ metrics) (hrep : rep ∈ (nsys_metrics_to_reports.lookup m).getD []) :
    rep ∈ reportsRequired metrics := by
  unfold reportsRequired
  rw [List.mem_dedup]
  exact List.mem_flatMap.mpr ⟨m, hm, hrep⟩

theorem reportsRequired_sub {metrics : List String} {rep : String}
    (h : rep ∈ reportsRequired metrics) : rep = "nvtx_kern_sum" ∨ rep = "nvtx_sum" := by
  unfold reportsRequired at h
  rw [List.mem_dedup] at h
  obtain ⟨m, _, hrep⟩ := List.mem_flatMap.mp h
  cases hml : nsys_metrics_to_reports.lookup m with
  | none => rw [hml] at hrep; simp at hrep
  | some v =>
    rw [hml] at hrep
    have hpair := mem_pair_of_lookup hml
    simp only [nsys_metrics_to_reports, List.mem_cons, List.not_mem_nil, or_false] at hpair
    rcases hpair with h1 | h1 | h1 | h1 | h1 | h1 <;>
      (obtain ⟨-, hv⟩ := Prod.mk.injEq .. ▸ h1; subst hv; simp at hrep; tauto)

theorem read_ncu_report_ok {report : NcuReport} {r : NcuRange} {rs : List NcuRange}
    (metrics : List String) (h : report.ranges = r :: rs) (hne : r.actions ≠ []) :
    read_ncu_report report metrics = Except.ok (ncu_entries r.actions metrics) := by
  simp only [read_ncu_report, h]
  rw [if_neg, if_neg]
  · rintro ⟨ht, hd⟩
    unfold ncu_durations at hd
    rw [if_pos (Or.inr ht)] at hd
    exact hne (List.map_eq_nil_iff.mp hd)
  · simpa [List.isEmpty_iff] using hne

theorem ncu_entries_lookup_memory_traffic (actions : List Kernel) (metrics : List String)
    (h : "memory_traffic" ∈ metrics) :
    (ncu_entries actions metrics).lookup "memory_traffic" =
      some (MetricValue.pair ((actions.map (fun k => (get_mem_traffic k).1)).sum)
        ((actions.map (fun k => (get_mem_traffic k).2)).sum)) := by
  unfold ncu_entries
  simp only [lookup_append]
  by_cases h2 : "arithmetic_intensity" ∈ metrics <;>
    by_cases h3 : "ncu_tflops" ∈ metrics <;>
      simp [h, h2, h3, List.lookup, List.map_map, Function.comp_def]

theorem ncu_entries_lookup_ai (actions : List Kernel) (metrics : List String)
    (h : "arithmetic_intensity" ∈ metrics) :
    (ncu_entries actions metrics).lookup "arithmetic_intensity" =
      some (MetricValue.pair
        ((actions.map (fun k => (get_arithmetic_intensity k).1 * get_dram_bytes k)).sum /
          (actions.map get_dram_bytes).sum)
        ((actions.map (fun k => (get_arithmetic_intensity k).2 * get_dram_bytes k)).sum /
          (actions.map get_dram_bytes).sum)) := by
  unfold ncu_entries
  simp only [lookup_append]
  by_cases h3 : "ncu_tflops" ∈ metrics <;>
    by_cases h4 : "memory_traffic" ∈ metrics <;>
      simp [h, h3, h4, List.lookup, List.map_map, Function.comp_def]

theorem ncu_entries_lookup_tflops (actions : List Kernel) (metrics : List String)
    (h : "ncu_tflops" ∈ metrics) :
    (ncu_entries actions metrics).lookup "ncu_tflops" =
      some (MetricValue.pair
        ((((actions.map get_flops).zip (actions.map get_duration)).map
            (fun p => p.1.1 * p.2)).sum / (10 : ℚ) ^ 12 / (actions.map get_duration).sum)
        ((((actions.map get_flops).zip (actions.map get_duration)).map
            (fun p => p.1.2 * p.2)).sum / (10 : ℚ) ^ 12 / (actions.map get_duration).sum)) := by
  unfold ncu_entries ncu_durations
  simp only [lookup_append]
  by_cases h2 : "arithmetic_intensity" ∈ metrics <;>
    by_cases h4 : "memory_traffic" ∈ metrics <;>
      simp [h, h2, h4, List.lookup, List.map_map, Function.comp_def]

/-- Every key that can occur in the read_ncu_report result mapping. -/
def ncu_result_keys : List String :=
  ["durations", "memory_traffic_raw", "arithmetic_intensity_raw", "ncu_tflops_raw",
   "memory_traffic_read_sum", "memory_traffic_write_sum", "memory_traffic",
   "weighted_fp32_arithmetic_intensity", "weighted_fp64_arithmetic_intensity",
   "arithmetic_intensity", "ncu_tflops"]

/-- The intermediate accumulator keys of read_ncu_report that are not
benchmark metric names. -/
def ncu_internal_keys : List String :=
  ["durations", "memory_traffic_raw", "arithmetic_intensity_raw", "ncu_tflops_raw",
   "memory_traffic_read_sum", "memory_traffic_write_sum",
   "weighted_fp32_arithmetic_intensity", "weighted_fp64_arithmetic_intensity"]

theorem ncu_entries_keys_sub (actions : List Kernel) (metrics : List String) :
    ∀ k, k ∈ (ncu_entries actions metrics).map Prod.fst → k ∈ ncu_result_keys := by
  intro k hk
  unfold ncu_entries at hk
  by_cases h2 : "arithmetic_intensity" ∈ metrics <;>
    by_cases h3 : "ncu_tflops" ∈ metrics <;>
      by_cases h4 : "memory_traffic" ∈ metrics <;>
        simp [h2, h3, h4, ncu_result_keys] at hk ⊢ <;>
          tauto

/-- C1: for every NCU report whose default range holds at least one kernel
action, with arithmetic_intensity among the required metrics,
read_ncu_report returns under arithmetic_intensity the DRAM-byte-weighted
averages (sum of per-kernel intensity times per-kernel DRAM bytes divided
by the total DRAM bytes), separately for fp32 and fp64, where a kernel
intensity is its FLOPS divided by its DRAM bandwidth. -/
theorem C1_weighted_arithmetic_intensity (report : NcuReport) (metrics : List String)
    (r : NcuRange) (rs : List NcuRange) (h : report.ranges = r :: rs)
    (hne : r.actions ≠ []) (hm : "arithmetic_intensity" ∈ metrics) :
    ∃ res, read_ncu_report report metrics = Except.ok res ∧
      res.lookup "arithmetic_intensity" = some (MetricValue.pair
        ((r.actions.map (fun k =>
            ((get_flops k).1 / k.metric_by_name (short_ncu_metric_name "dram_bandwidth")) *
              get_dram_bytes k)).sum / (r.actions.map get_dram_bytes).sum)
        ((r.actions.map (fun k =>
            ((get_flops k).2 / k.metric_by_name (short_ncu_metric_name "dram_bandwidth")) *
              get_dram_bytes k)).sum / (r.actions.map get_dram_bytes).sum)) := by
  refine ⟨_, read_ncu_report_ok metrics h hne, ?_⟩
  rw [ncu_entries_lookup_ai _ _ hm]
  simp [get_arithmetic_intensity]

/-- Witness for C1 at the synthetic two-kernel report of the spec
(bytes 100 with intensity 2, bytes 300 with intensity 6): the weighted
fp32 intensity is 5 and the fp64 one is 0. -/
theorem C1_witness :
    ∃ res, read_ncu_report exampleReportAB ["arithmetic_intensity"] = Except.ok res ∧
      res.lookup "arithmetic_intensity" = some (MetricValue.pair 5 0) := by
  obtain ⟨res, hok, hl⟩ := C1_weighted_arithmetic_intensity exampleReportAB
    ["arithmetic_intensity"] ⟨[kernelA, kernelB]⟩ [] rfl (by simp) (by simp)
  refine ⟨res, hok, ?_⟩
  rw [hl]
  simp [get_flops, get_dram_bytes, kernelA, kernelB, short_ncu_metric_name]
  norm_num

/-- C2: for every NCU report whose default range holds at least one kernel
action, with ncu_tflops among the required metrics, read_ncu_report returns
under ncu_tflops the duration-weighted averages of per-kernel FLOPS
converted to tera-scale: the sum of per-kernel flops times duration,
divided by ten to the twelfth, divided by the total duration, separately
for fp32 and fp64. -/
theorem C2_weighted_tflops (report : NcuReport) (metrics : List String)
    (r : NcuRange) (rs : List NcuRange) (h : report.ranges = r :: rs)
    (hne : r.actions ≠ []) (hm : "ncu_tflops" ∈ metrics) :
    ∃ res, read_ncu_report report metrics = Except.ok res ∧
      res.lookup "ncu_tflops" = some (MetricValue.pair
        (((r.actions.map (fun k => (get_flops k).1 * get_duration k)).sum / (10 : ℚ) ^ 12) /
          (r.actions.map get_duration).sum)
        (((r.actions.map (fun k => (get_flops k).2 * get_duration k)).sum / (10 : ℚ) ^ 12) /
          (r.actions.map get_duration).sum)) := by
  refine ⟨_, read_ncu_report_ok metrics h hne, ?_⟩
  rw [ncu_entries_lookup_tflops _ _ hm]
  rw [List.zip_map' get_flops get_duration r.actions]
  simp [List.map_map, Function.comp_def]

/-- Witness for C2 at the synthetic two-kernel report: flops 2 and 6 over
durations 1 and 3 give (2 + 18) / 4 / 10^12 = 5e-12 achieved fp32 TFLOPS. -/
theorem C2_witness :
    ∃ res, read_ncu_report exampleReportAB ["ncu_tflops"] = Except.ok res ∧
      res.lookup "ncu_tflops" = some (MetricValue.pair (1 / 200000000000) 0) := by
  obtain ⟨res, hok, hl⟩ := C2_weighted_tflops exampleReportAB
    ["ncu_tflops"] ⟨[kernelA, kernelB]⟩ [] rfl (by simp) (by simp)
  refine ⟨res, hok, ?_⟩
  rw [hl]
  simp [get_flops, get_duration, kernelA, kernelB, short_ncu_metric_name]
  norm_num

/-- C3: per-kernel fp32 and fp64 FLOPS as computed by get_flops equal the
achieved add plus mul plus twice fma per-cycle counts, multiplied by the
SM clock frequency; an FMA counts as exactly two operations. -/
theorem C3_flops_formula (kernel : Kernel) :
    get_flops kernel =
      ((kernel.metric_by_name (short_ncu_metric_name "inst_executed_fadd") +
        kernel.metric_by_name (short_ncu_metric_name "inst_executed_fmul") +
        2 * kernel.metric_by_name (short_ncu_metric_name "inst_executed_ffma")) *
          kernel.metric_by_name (short_ncu_metric_name "sm_freq"),
       (kernel.metric_by_name (short_ncu_metric_name "inst_executed_dadd") +
        kernel.metric_by_name (short_ncu_metric_name "inst_executed_dmul") +
        2 * kernel.metric_by_name (short_ncu_metric_name "inst_executed_dfma")) *
          kernel.metric_by_name (short_ncu_metric_name "sm_freq")) := rfl

/-- C5: with memory_traffic among the required metrics, read_ncu_report
returns under memory_traffic the pair of the summed per-kernel DRAM read
bytes and the summed per-kernel DRAM write bytes, and two reports whose
default-range kernels are permutations of each other get the same value. -/
theorem C5_memory_traffic_sum_perm (report₁ report₂ : NcuReport) (metrics : List String)
    (r₁ r₂ : NcuRange) (rs₁ rs₂ : List NcuRange)
    (h₁ : report₁.ranges = r₁ :: rs₁) (h₂ : report₂.ranges = r₂ :: rs₂)
    (hperm : r₁.actions.Perm r₂.actions) (hne : r₁.actions ≠ [])
    (hm : "memory_traffic" ∈ metrics) :
    ∃ res₁ res₂, read_ncu_report report₁ metrics = Except.ok res₁ ∧
      read_ncu_report report₂ metrics = Except.ok res₂ ∧
      res₁.lookup "memory_traffic" = some (MetricValue.pair
        ((r₁.actions.map (fun k => (get_mem_traffic k).1)).sum)
        ((r₁.actions.map (fun k => (get_mem_traffic k).2)).sum)) ∧
      res₂.lookup "memory_traffic" = res₁.lookup "memory_traffic" := by
  have hne₂ : r₂.actions ≠ [] := by
    intro hnil
    exact hne (List.Perm.eq_nil (hnil ▸ hperm))
  refine ⟨_, _, read_ncu_report_ok metrics h₁ hne, read_ncu_report_ok metrics h₂ hne₂,
    ncu_entries_lookup_memory_traffic _ _ hm, ?_⟩
  rw [ncu_entries_lookup_memory_traffic _ _ hm, ncu_entries_lookup_memory_traffic _ _ hm]
  rw [(hperm.map (fun k => (get_mem_traffic k).1)).sum_eq,
    (hperm.map (fun k => (get_mem_traffic k).2)).sum_eq]

/-- Witness for C5: the two orderings of the synthetic two-kernel report
both report memory traffic (40, 60). -/
theorem C5_witness :
    ∃ res₁ res₂, read_ncu_report exampleReportAB ["memory_traffic"] = Except.ok res₁ ∧
      read_ncu_report exampleReportBA ["memory_traffic"] = Except.ok res₂ ∧
      res₁.lookup "memory_traffic" = some (MetricValue.pair 40 60) ∧
      res₂.lookup "memory_traffic" = res₁.lookup "memory_traffic" := by
  obtain ⟨res₁, res₂, hok₁, hok₂, hl₁, hl₂⟩ := C5_memory_traffic_sum_perm
    exampleReportAB exampleReportBA ["memory_traffic"] ⟨[kernelA, kernelB]⟩
    ⟨[kernelB, kernelA]⟩ [] [] rfl rfl (List.Perm.swap kernelB kernelA []) (by simp) (by simp)
  refine ⟨res₁, res₂, hok₁, hok₂, ?_, hl₂⟩
  rw [hl₁]
  simp [get_mem_traffic, kernelA, kernelB, short_ncu_metric_name]
  norm_num

/-- C7: read_ncu_report succeeds exactly when the report has at least one
profiling range and the default (first) range has at least one kernel
action; otherwise it raises and returns no result. -/
theorem C7_success_iff (report : NcuReport) (metrics : List String) :
    (∃ res, read_ncu_report report metrics = Except.ok res) ↔
      ∃ r rs, report.ranges = r :: rs ∧ r.actions ≠ [] := by
  constructor
  · rintro ⟨res, hres⟩
    cases hr : report.ranges with
    | nil =>
      rw [read_ncu_report, hr] at hres
      exact absurd hres (by simp)
    | cons r rs =>
      refine ⟨r, rs, rfl, fun hnil => ?_⟩
      simp [read_ncu_report, hr, hnil] at hres
  · rintro ⟨r, rs, hr, hne⟩
    exact ⟨_, read_ncu_report_ok metrics hr hne⟩

theorem mem_fst_filterMap {l : List String} {mm : List (String × MetricValue)} {k : String}
    (h : k ∈ (l.filterMap (fun m => (mm.lookup m).map (fun v => (m, v)))).map Prod.fst) :
    k ∈ l ∧ (mm.lookup k).isSome := by
  induction l with
  | nil => simp at h
  | cons m t ih =>
    rw [List.filterMap_cons] at h
    cases hml : mm.lookup m with
    | none =>
      rw [hml] at h
      simp only [Option.map_none'] at h
      obtain ⟨h1, h2⟩ := ih h
      exact ⟨List.mem_cons_of_mem _ h1, h2⟩
    | some v =>
      rw [hml] at h
      simp only [Option.map_some', List.map_cons, List.mem_cons] at h
      rcases h with rfl | h
      · exact ⟨by simp, by simp [hml]⟩
      · obtain ⟨h1, h2⟩ := ih h
        exact ⟨List.mem_cons_of_mem _ h1, h2⟩

theorem nsysCompute_ok_shape {L : List (String × List NsysRow)} {metrics : List String}
    {res : List (String × MetricValue)}
    (h : nsysComputeFromCsvs L metrics = Except.ok res) :
    ∃ kd kn d, res = nsys_filter_results metrics (nsys_metrics_map kd kn d) := by
  simp only [nsysComputeFromCsvs] at h
  cases hs : L.lookup "nvtx_sum" with
  | none =>
    rw [hs] at h
    exact ⟨_, _, _, by simpa using h.symm⟩
  | some rows =>
    rw [hs] at h
    cases rows with
    | nil => simp at h
    | cons a t =>
      cases t with
      | nil => exact ⟨_, _, _, by simpa using h.symm⟩
      | cons b t2 => simp at h

/-- C6 counterexample: requesting zero metrics from the nsys analyzer does
not return an empty result mapping; the analyzer raises its fatal
"No nsys reports required" assertion instead. -/
theorem C6_counterexample :
    read_nsys_report emptyNsysEnv [] = Except.error "No nsys reports required" := rfl

/-- C6 amended: with an empty metrics collection the nsys analyzer raises
the fatal "No nsys reports required" error rather than returning a
mapping, while the NCU analyzer still loads and validates the report: it
returns an empty mapping when the default range is nonempty, and raises
when the report has no range at all (so report parsing is still invoked). -/
theorem C6_empty_metrics_amended :
    (∀ env : NsysEnv, read_nsys_report env [] = Except.error "No nsys reports required") ∧
    (∀ (report : NcuReport) (r : NcuRange) (rs : List NcuRange),
      report.ranges = r :: rs → r.actions ≠ [] →
      read_ncu_report report [] = Except.ok []) ∧
    (∀ report : NcuReport, report.ranges = [] →
      read_ncu_report report [] =
        Except.error "No profile data found in the NCU report") := by
  refine ⟨fun env => rfl, fun report r rs h hne => ?_, fun report h => ?_⟩
  · rw [read_ncu_report_ok [] h hne]
    simp [ncu_entries]
  · simp [read_ncu_report, h]

/-- Witness for C6 amended at concrete inputs: the empty metrics list with
the empty CSV environment, the two-kernel report, and the rangeless
report. -/
theorem C6_witness :
    read_nsys_report emptyNsysEnv [] = Except.error "No nsys reports required" ∧
    read_ncu_report exampleReportAB [] = Except.ok [] ∧
    read_ncu_report emptyNcuReport [] =
      Except.error "No profile data found in the NCU report" :=
  ⟨C6_empty_metrics_amended.1 emptyNsysEnv,
   C6_empty_metrics_amended.2.1 exampleReportAB ⟨[kernelA, kernelB]⟩ [] rfl (by simp),
   C6_empty_metrics_amended.2.2 emptyNcuReport rfl⟩

/-- C9 counterexample: the name durations is not a key of
bench_metric_to_short_ncu_metric, yet requesting it next to ncu_tflops
produces a result mapping with an entry under durations (the internal
accumulator leaks into the filtered output of read_ncu_report). -/
theorem C9_counterexample :
    bench_metric_to_short_ncu_metric.lookup "durations" = none ∧
    ncuLookup exampleReportAB ["ncu_tflops", "durations"] "durations" =
      some (MetricValue.numList [1, 3]) := by
  constructor
  · decide
  · simp [ncuLookup, read_ncu_report, ncu_entries, ncu_durations, get_duration,
      short_ncu_metric_name, exampleReportAB, kernelA, kernelB, List.lookup]

/-- C9 amended: a requested metric name outside the dependency table never
causes an error and is silently ignored, but for the NCU analyzer the
returned mapping is only guaranteed to have no entry under that name when
the name also differs from all internal accumulator keys the analyzer
stores next to the requested metrics; the nsys result mapping only
contains requested names that are keys of nsys_metrics_to_reports. -/
theorem C9_unknown_metric_amended :
    (∀ (report : NcuReport) (metrics : List String) (res : List (String × MetricValue))
      (m : String), read_ncu_report report metrics = Except.ok res →
      m ∉ bench_metric_to_short_ncu_metric.map Prod.fst → m ∉ ncu_internal_keys →
      res.lookup m = none) ∧
    (∀ (env : NsysEnv) (metrics : List String) (res : List (String × MetricValue)),
      read_nsys_report env metrics = Except.ok res →
      ∀ k ∈ res.map Prod.fst, k ∈ metrics ∧ k ∈ nsys_metrics_to_reports.map Prod.fst) := by
  constructor
  · intro report metrics res m hok htable hinternal
    cases hr : report.ranges with
    | nil =>
      rw [read_ncu_report, hr] at hok
      exact absurd hok (by simp)
    | cons r rs =>
      by_cases hnil : r.actions = []
      · simp [read_ncu_report, hr, hnil] at hok
      · rw [read_ncu_report_ok metrics hr hnil] at hok
        obtain rfl : ncu_entries r.actions metrics = res := by simpa using hok
        cases hlook : (ncu_entries r.actions metrics).lookup m with
        | none => rfl
        | some v =>
          exfalso
          have hmem := ncu_entries_keys_sub r.actions metrics m (mem_keys_of_lookup hlook)
          simp only [ncu_result_keys, List.mem_cons, List.not_mem_nil, or_false] at hmem
          rcases hmem with rfl | rfl | rfl | rfl | rfl | rfl | rfl | rfl | rfl | rfl | rfl <;>
            simp_all [ncu_internal_keys, bench_metric_to_short_ncu_metric]
  · intro env metrics res hok k hk
    rw [read_nsys_report] at hok
    by_cases hempty : (reportsRequired metrics).isEmpty
    · rw [if_pos hempty] at hok
      exact absurd hok (by simp)
    · rw [if_neg hempty] at hok
      cases hcol : collect_csvs env (reportsRequired metrics) with
      | error e =>
        rw [hcol] at hok
        exact absurd hok (by simp)
      | ok L =>
        rw [hcol] at hok
        obtain ⟨kd, kn, d, rfl⟩ := nsysCompute_ok_shape hok
        rw [nsys_filter_results] at hk
        obtain ⟨hmem, hsome⟩ := mem_fst_filterMap hk
        obtain ⟨v, hv⟩ := Option.isSome_iff_exists.mp hsome
        have hkeys := mem_keys_of_lookup hv
        refine ⟨List.mem_dedup.mp hmem, ?_⟩
        simp only [nsys_metrics_map, nsys_metrics_to_reports, List.map_cons, List.map_nil,
          List.mem_cons, List.not_mem_nil, or_false] at hkeys ⊢
        tauto

/-- Witness for C9 amended: requesting the unknown name bogus_metric next
to memory_traffic yields a result with no bogus_metric entry, and a
one-metric nsys request returns only that requested key. -/
theorem C9_witness :
    (∃ res, read_ncu_report exampleReportAB ["memory_traffic", "bogus_metric"] =
        Except.ok res ∧ res.lookup "bogus_metric" = none) ∧
    (∃ res, read_nsys_report envGood ["nsys_num_of_kernels"] = Except.ok res ∧
      ∀ k ∈ res.map Prod.fst,
        k ∈ ["nsys_num_of_kernels"] ∧ k ∈ nsys_metrics_to_reports.map Prod.fst) := by
  constructor
  · have hok := @read_ncu_report_ok exampleReportAB ⟨[kernelA, kernelB]⟩ []
      ["memory_traffic", "bogus_metric"] rfl (by simp)
    exact ⟨_, hok, C9_unknown_metric_amended.1 _ _ _ _ hok (by decide) (by decide)⟩
  · have hok : read_nsys_report envGood ["nsys_num_of_kernels"] =
        Except.ok [("nsys_num_of_kernels", MetricValue.count 2)] := by
      simp [read_nsys_report, reportsRequired, nsys_metrics_to_reports, collect_csvs,
        nsysComputeFromCsvs, nsys_filter_results, nsys_metrics_map, envGood,
        List.lookup, List.dedup, List.flatMap]
    exact ⟨_, hok, C9_unknown_metric_amended.2 envGood _ _ hok⟩

theorem read_nsys_report_eq (env : NsysEnv) (metrics : List String)
    (hne : reportsRequired metrics ≠ [])
    (hcsv : ∀ r ∈ reportsRequired metrics, (env.csv r).isSome) :
    ∃ L, read_nsys_report env metrics = nsysComputeFromCsvs L metrics ∧
      (∀ r : String, L.lookup r = if r ∈ reportsRequired metrics then env.csv r else none) := by
  obtain ⟨L, hL⟩ := collect_csvs_ok env _ hcsv
  refine ⟨L, ?_, collect_csvs_lookup env _ L hL⟩
  rw [read_nsys_report]
  rw [if_neg (by simpa [List.isEmpty_iff] using hne), hL]

theorem nsys_filter_lookup (metrics : List String) (mm : List (String × MetricValue))
    (k : String) (hk : k ∈ metrics) :
    (nsys_filter_results metrics mm).lookup k = mm.lookup k := by
  rw [nsys_filter_results, lookup_filterMap, if_pos (List.mem_dedup.mpr hk)]

/-- C4: when both the per-kernel summary and the range-duration summary
are parsed, nsys_launch_overhead equals the nvtx range duration minus the
sum of the per-kernel durations, all in milliseconds converted from
nanoseconds, returned as-is even when negative. -/
theorem C4_launch_overhead (env : NsysEnv) (metrics : List String)
    (kernRows : List NsysRow) (sumRow : NsysRow)
    (hm : "nsys_launch_overhead" ∈ metrics)
    (hkern : env.csv "nvtx_kern_sum" = some kernRows)
    (hsum : env.csv "nvtx_sum" = some [sumRow]) :
    ∃ res, read_nsys_report env metrics = Except.ok res ∧
      res.lookup "nsys_launch_overhead" = some (MetricValue.num
        (sumRow.total_time_ns / 1000000 -
          (kernRows.map (fun row => row.total_time_ns / 1000000)).sum)) := by
  have hns : "nvtx_sum" ∈ reportsRequired metrics :=
    mem_reportsRequired hm (by simp [nsys_metrics_to_reports, List.lookup])
  have hnk : "nvtx_kern_sum" ∈ reportsRequired metrics :=
    mem_reportsRequired hm (by simp [nsys_metrics_to_reports, List.lookup])
  have hne : reportsRequired metrics ≠ [] := fun hnil => by
    rw [hnil] at hns
    exact absurd hns (by simp)
  have hcsv : ∀ r ∈ reportsRequired metrics, (env.csv r).isSome := by
    intro r hr
    rcases reportsRequired_sub hr with rfl | rfl
    · simp [hkern]
    · simp [hsum]
  obtain ⟨L, hread, hlook⟩ := read_nsys_report_eq env metrics hne hcsv
  have hLk : L.lookup "nvtx_kern_sum" = some kernRows := by
    rw [hlook, if_pos hnk, hkern]
  have hLs : L.lookup "nvtx_sum" = some [sumRow] := by
    rw [hlook, if_pos hns, hsum]
  rw [hread]
  simp only [nsysComputeFromCsvs, hLk, hLs]
  refine ⟨_, rfl, ?_⟩
  rw [nsys_filter_lookup _ _ _ hm]
  simp [nsys_metrics_map, List.lookup]

/-- Witness for C4 at the spec example (range 100 ms, kernels 20 ms and
30 ms give overhead 50 ms) and at an environment where the overhead is
negative (range 10 ms, kernels 50 ms give -40 ms, returned unclamped). -/
theorem C4_witness :
    (∃ res, read_nsys_report envGood ["nsys_launch_overhead"] = Except.ok res ∧
      res.lookup "nsys_launch_overhead" = some (MetricValue.num 50)) ∧
    (∃ res, read_nsys_report envNeg ["nsys_launch_overhead"] = Except.ok res ∧
      res.lookup "nsys_launch_overhead" = some (MetricValue.num (-40))) := by
  constructor
  · obtain ⟨res, hok, hl⟩ := C4_launch_overhead envGood ["nsys_launch_overhead"]
      [⟨20000000, "kernel1"⟩, ⟨30000000, "kernel2"⟩] ⟨100000000, ":tritonbench_range"⟩
      (by simp) (by simp [envGood]) (by simp [envGood])
    refine ⟨res, hok, ?_⟩
    rw [hl]
    norm_num
  · obtain ⟨res, hok, hl⟩ := C4_launch_overhead envNeg ["nsys_launch_overhead"]
      [⟨20000000, "kernel1"⟩, ⟨30000000, "kernel2"⟩] ⟨10000000, ":tritonbench_range"⟩
      (by simp) (by simp [envNeg]) (by simp [envNeg])
    refine ⟨res, hok, ?_⟩
    rw [hl]
    norm_num

/-- C8: when the nvtx_sum report is parsed, read_nsys_report raises its
fatal assertion if the CSV has any number of data rows other than one, and
otherwise takes the nvtx range duration from the single row; no partial
result is returned on violation. -/
theorem C8_nvtx_sum_single_row (env : NsysEnv) (metrics : List String) (rows : List NsysRow)
    (hreq : "nvtx_sum" ∈ reportsRequired metrics)
    (hcsv : ∀ r ∈ reportsRequired metrics, (env.csv r).isSome)
    (hrows : env.csv "nvtx_sum" = some rows) :
    (rows.length ≠ 1 →
      read_nsys_report env metrics =
        Except.error "assert failed: nvtx_sum is supposed to have only one row") ∧
    (∀ row, rows = [row] →
      ∃ res, read_nsys_report env metrics = Except.ok res ∧
        ("nsys_nvtx_range_duration" ∈ metrics →
          res.lookup "nsys_nvtx_range_duration" =
            some (MetricValue.num (row.total_time_ns / 1000000)))) := by
  have hne : reportsRequired metrics ≠ [] := fun hnil => by
    rw [hnil] at hreq
    exact absurd hreq (by simp)
  obtain ⟨L, hread, hlook⟩ := read_nsys_report_eq env metrics hne hcsv
  have hLs : L.lookup "nvtx_sum" = some rows := by
    rw [hlook, if_pos hreq, hrows]
  constructor
  · intro hlen
    rw [hread]
    simp only [nsysComputeFromCsvs, hLs]
    match rows, hlen with
    | [], _ => rfl
    | a :: b :: t, _ => rfl
    | [a], h => exact absurd rfl h
  · rintro row rfl
    rw [hread]
    simp only [nsysComputeFromCsvs, hLs]
    refine ⟨_, rfl, fun hm => ?_⟩
    rw [nsys_filter_lookup _ _ _ hm]
    simp [nsys_metrics_map, List.lookup]

/-- Witness for C8: a two-row nvtx_sum CSV makes the call fatal, while the
single-row environment returns the 100 ms range duration. -/
theorem C8_witness :
    read_nsys_report envTwoRows ["nsys_nvtx_range_duration"] =
      Except.error "assert failed: nvtx_sum is supposed to have only one row" ∧
    (∃ res, read_nsys_report envGood ["nsys_nvtx_range_duration"] = Except.ok res ∧
      res.lookup "nsys_nvtx_range_duration" = some (MetricValue.num 100)) := by
  constructor
  · exact (C8_nvtx_sum_single_row envTwoRows ["nsys_nvtx_range_duration"]
      [⟨100000000, "a"⟩, ⟨100000000, "b"⟩] (by decide)
      (by decide) (by simp [envTwoRows])).1 (by decide)
  · obtain ⟨res, hok, hl⟩ := (C8_nvtx_sum_single_row envGood ["nsys_nvtx_range_duration"]
      [⟨100000000, ":tritonbench_range"⟩] (by decide)
      (by decide) (by simp [envGood])).2 ⟨100000000, ":tritonbench_range"⟩ rfl
    refine ⟨res, hok, ?_⟩
    rw [hl (by simp)]
    norm_num

/-- C10: whenever the per-kernel summary is parsed, nsys_kernel_durations
is returned as a list of strings (the rendered millisecond durations),
nsys_gpu_kernel_sum and nsys_nvtx_range_duration as numbers, and
nsys_num_of_kernels equals the length of both the kernel-name list and the
kernel-duration list. -/
theorem C10_nsys_types_and_lengths (env : NsysEnv) (metrics : List String)
    (kernRows : List NsysRow)
    (hreq : "nvtx_kern_sum" ∈ reportsRequired metrics)
    (hcsv : ∀ r ∈ reportsRequired metrics, (env.csv r).isSome)
    (hkern : env.csv "nvtx_kern_sum" = some kernRows)
    (hsum : ∀ rows, env.csv "nvtx_sum" = some rows → rows.length = 1) :
    ∃ res, read_nsys_report env metrics = Except.ok res ∧
      ("nsys_kernel_durations" ∈ metrics →
        res.lookup "nsys_kernel_durations" = some (MetricValue.strList
          ((kernRows.map (fun row => row.total_time_ns / 1000000)).map float_str))) ∧
      ("nsys_gpu_kernel_sum" ∈ metrics →
        res.lookup "nsys_gpu_kernel_sum" = some (MetricValue.num
          ((kernRows.map (fun row => row.total_time_ns / 1000000)).sum))) ∧
      (∀ v, res.lookup "nsys_nvtx_range_duration" = some v →
        ∃ q : ℚ, v = MetricValue.num q) ∧
      ("nsys_num_of_kernels" ∈ metrics →
        res.lookup "nsys_num_of_kernels" = some (MetricValue.count
          (kernRows.map (fun row => row.kernel_name)).length) ∧
        (kernRows.map (fun row => row.kernel_name)).length = kernRows.length ∧
        (kernRows.map (fun row => row.total_time_ns / 1000000)).length = kernRows.length) := by
  have hne : reportsRequired metrics ≠ [] := fun hnil => by
    rw [hnil] at hreq
    exact absurd hreq (by simp)
  obtain ⟨L, hread, hlook⟩ := read_nsys_report_eq env metrics hne hcsv
  have hLk : L.lookup "nvtx_kern_sum" = some kernRows := by
    rw [hlook, if_pos hreq, hkern]
  have key : ∃ d, read_nsys_report env metrics = Except.ok
      (nsys_filter_results metrics
        (nsys_metrics_map (kernRows.map (fun row => row.total_time_ns / 1000000))
          (kernRows.map (fun row => row.kernel_name)) d)) := by
    by_cases hs : "nvtx_sum" ∈ reportsRequired metrics
    · obtain ⟨rows, hrows⟩ := Option.isSome_iff_exists.mp (hcsv "nvtx_sum" hs)
      have hLs : L.lookup "nvtx_sum" = some rows := by
        rw [hlook, if_pos hs, hrows]
      obtain ⟨row, rfl⟩ : ∃ row, rows = [row] := by
        cases rows with
        | nil => exact absurd (hsum [] hrows) (by simp)
        | cons a t =>
          cases t with
          | nil => exact ⟨a, rfl⟩
          | cons b t2 => exact absurd (hsum _ hrows) (by simp)
      rw [hread]
      simp only [nsysComputeFromCsvs, hLk, hLs]
      exact ⟨row.total_time_ns / 1000000, rfl⟩
    · have hLs : L.lookup "nvtx_sum" = none := by
        rw [hlook, if_neg hs]
      rw [hread]
      simp only [nsysComputeFromCsvs, hLk, hLs]
      exact ⟨0, rfl⟩
  obtain ⟨d, hok⟩ := key
  refine ⟨_, hok, fun hm => ?_, fun hm => ?_, fun v hv => ?_, fun hm => ?_⟩
  · rw [nsys_filter_lookup _ _ _ hm]
    simp [nsys_metrics_map, List.lookup]
  · rw [nsys_filter_lookup _ _ _ hm]
    simp [nsys_metrics_map, List.lookup]
  · rw [nsys_filter_results, lookup_filterMap] at hv
    by_cases hm : "nsys_nvtx_range_duration" ∈ metrics.dedup
    · rw [if_pos hm] at hv
      refine ⟨d, ?_⟩
      simp only [nsys_metrics_map, List.lookup] at hv
      simpa using hv.symm
    · rw [if_neg hm] at hv
      exact absurd hv (by simp)
  · refine ⟨?_, by simp, by simp⟩
    rw [nsys_filter_lookup _ _ _ hm]
    simp [nsys_metrics_map, List.lookup]

/-- Witness for C10 at the two-kernel environment: durations come back as
the strings "20" and "30", the kernel sum as the number 50, and the kernel
count as 2, the length of both per-kernel lists. -/
theorem C10_witness :
    ∃ res, read_nsys_report envGood
        ["nsys_kernel_durations", "nsys_gpu_kernel_sum", "nsys_nvtx_range_duration",
          "nsys_num_of_kernels"] = Except.ok res ∧
      res.lookup "nsys_kernel_durations" = some (MetricValue.strList ["20", "30"]) ∧
      res.lookup "nsys_gpu_kernel_sum" = some (MetricValue.num 50) ∧
      res.lookup "nsys_num_of_kernels" = some (MetricValue.count 2) := by
  obtain ⟨res, hok, h1, h2, h3, h4⟩ := C10_nsys_types_and_lengths envGood
    ["nsys_kernel_durations", "nsys_gpu_kernel_sum", "nsys_nvtx_range_duration",
      "nsys_num_of_kernels"]
    [⟨20000000, "kernel1"⟩, ⟨30000000, "kernel2"⟩] (by decide) (by decide)
    (by simp [envGood])
    (by
      intro rows h
      simp [envGood] at h
      simp [← h])
  refine ⟨res, hok, ?_, ?_, ?_⟩
  · rw [h1 (by simp)]
    norm_num
    decide
  · rw [h2 (by simp)]
    norm_num
  · rw [(h4 (by simp)).1]
    norm_num
